import Mathlib

/-!
Verification development for the `doco` repository: a shallow embedding of
its service-lifecycle orchestration, reverse-proxy configuration generator,
HTTP error envelope, and blob-delivery handler, with theorems checking the
natural-language specification against the code.

Source of truth: `src/doco.go` (package doco) and `src/unnamed/part_000`
(package main).  External library behaviour (oklog/run, caddy v1 directive
semantics) is not in the repository sources; where a claim depends on it,
the corresponding definition is modelled from the specification and marked
as such in its doc comment.
-/

namespace Doco

/-- A Go `error` value, modelled by its `Error()` message string.
`errors.New s` constructs the error whose message is `s`. -/
structure GoError where
  msg : String
deriving DecidableEq, Repr

/-- Go `errors.New`: build an error from a message string. -/
def errorsNew (s : String) : GoError := ⟨s⟩

/-- Go `err.Error()`: the message of an error. -/
def GoError.errorText (e : GoError) : String := e.msg

/-- `ErrorResponse` (src/doco.go:43-46): the two-field HTTP error envelope.
Go field `Err` has JSON tag `err`, Go field `Message` has JSON tag
`message`. -/
structure ErrorResponse where
  err : String
  message : String
deriving DecidableEq, Repr

/-- `Err` constructor (src/doco.go:49-58): wraps an error; `Err` field and
`Message` field both default to `err.Error()`; an optional variadic
`message` argument overrides the `Message` field. -/
def Err (err : GoError) (message : List String) : ErrorResponse :=
  let e : ErrorResponse := { err := err.errorText, message := err.errorText }
  match message with
  | [] => e
  | m :: _ => { e with message := m }

/-- `ErrorResponse.Unwrap` (src/doco.go:61-63): returns
`errors.New(e.Err)`. -/
def ErrorResponse.Unwrap (e : ErrorResponse) : GoError :=
  errorsNew e.err

/-- `ErrorResponse.Error` (src/doco.go:64-66): the envelope's own error
message is its `Message` field. -/
def ErrorResponse.errorText (e : ErrorResponse) : String := e.message

/-- A JSON value, structured: enough to describe the wire payloads this
package marshals. -/
inductive Json where
  | str (s : String)
  | obj (fields : List (String × Json))

/-- `ErrorResponse.JSON` (src/doco.go:69-76) marshals the envelope with
`encoding/json`; by the struct tags the result is exactly the object with
the two string fields `err` and `message`, in that order. -/
def ErrorResponse.toJson (e : ErrorResponse) : Json :=
  .obj [("err", .str e.err), ("message", .str e.message)]

/-- What an HTTP response body written by this package's handlers holds:
an error envelope (via `http.Error` with `Err(...).JSON()`), a JSON-encoded
success result (via `json.NewEncoder(w).Encode`), or raw blob content
(via `http.ServeContent`). -/
inductive Body where
  | errorEnvelope (j : Json)
  | jsonResult (j : Json)
  | content (bytes : List Nat)

/-- An HTTP response as observed from the handler's own writes: status
code, the headers the handler set, and the body kind. -/
structure HttpResponse where
  status : Nat
  headers : List (String × String)
  body : Body

/-- `withError` (src/doco.go:77-102): adapts a `HandlerFunc` returning
`(result, code, err)` to an `http.HandlerFunc`.  If `err` is non-nil the
envelope `Err(err)` is written with the given code; if the result is nil
(with nil error) the error is taken to be `errors.New("no response")` and
the envelope `Err(err, "no response")` is written with the given code;
otherwise the result is JSON-encoded as the success body. -/
def withError (result : Option Json) (code : Nat) (err : Option GoError) :
    HttpResponse :=
  match err with
  | some e =>
      { status := code, headers := [],
        body := .errorEnvelope (Err e []).toJson }
  | none =>
      match result with
      | none =>
          { status := code, headers := [],
            body := .errorEnvelope (Err (errorsNew "no response") ["no response"]).toJson }
      | some r =>
          { status := code, headers := [], body := .jsonResult r }

/-- A stored blob (package db, external collaborator): filename key, mime
type and raw bytes, as read by `blobHandler`. -/
structure Blob where
  fileName : String
  mimeType : String
  file : List Nat
deriving DecidableEq, Repr

/-- Outcome of the Content Store lookup
`db.Blobs(db.BlobWhere.FileName.EQ(name)).OneG()`: the blob, or an error
(including not-found). -/
inductive LookupResult where
  | found (b : Blob)
  | failed (e : GoError)
deriving DecidableEq, Repr

/-- `blobHandler` (src/doco.go:202-221): on lookup error, writes the
envelope `Err(err)` with status 400 and no content; on success, sets
`Content-Type` to the blob's mime type only when it is non-empty and not
`"unknown"`, always sets `Content-Disposition: attachment;filename=<name>`
(via `fmt.Sprintf("%s;filename=%s", "attachment", blob.FileName)`), and
serves the stored bytes with `http.ServeContent` (status 200 for a plain
GET). -/
def blobHandler (lookup : LookupResult) : HttpResponse :=
  match lookup with
  | .failed e =>
      { status := 400, headers := [],
        body := .errorEnvelope (Err e []).toJson }
  | .found b =>
      { status := 200,
        headers :=
          (if b.mimeType ≠ "" ∧ b.mimeType ≠ "unknown" then
            [("Content-Type", b.mimeType)]
          else []) ++
          [("Content-Disposition", "attachment;filename=" ++ b.fileName)],
        body := .content b.file }

/-- Leading piece of the rendered Caddyfile (src/doco.go:104-118), up to
the space just before the literal `localhost` that the template glues onto
the upstream address in `proxy /api/ localhost{{ .apiAddr }}`. -/
def caddyPre (caddyAddr : String) : String :=
  "\n" ++ caddyAddr ++
  " \x7b\n\ttls off\n    proxy /api/ "

/-- Trailing piece of the rendered Caddyfile (src/doco.go:104-118), from
the space after the upstream address to the end of the template. -/
def caddySuf (rootPath : String) : String :=
  " \x7b\n\t\ttransparent\n\t\twebsocket\n\t\ttimeout 10m\n    \x7d\n    root " ++
  rootPath ++
  "\n    rewrite \x7b \n        if \x7bpath\x7d not_match ^/api\n        to \x7bpath\x7d /\n    \x7d\n\x7d\n"

/-- The Caddyfile rendering performed in `RunLoadBalancer`
(src/doco.go:166-177): `text/template` substitution of the three plain
string inputs into `caddyfileTemplate`.  Substituting strings into this
fixed template cannot fail, so the render is a total function. -/
def caddyfileRender (caddyAddr apiAddr rootPath : String) : String :=
  caddyPre caddyAddr ++ ("localhost" ++ apiAddr) ++ caddySuf rootPath

/-- The routing directives the rendered configuration contains, read off
the fixed template shape (src/doco.go:104-118): the site address, `tls
off`, the `proxy /api/ localhost<apiAddr>` block with its three
sub-directives, the static `root`, and the rewrite rule guarded by
`if \x7bpath\x7d not_match ^/api` with fallback targets `\x7bpath\x7d /`. -/
structure RoutingConfig where
  caddyAddr : String
  tlsOff : Bool
  proxyPath : String
  proxyUpstream : String
  proxyTransparent : Bool
  proxyWebsocket : Bool
  proxyTimeout : String
  rootPath : String
  rewriteNotMatch : String
  rewriteTo : List String
deriving DecidableEq, Repr

/-- The structured content of the configuration generated for the three
inputs, field by field from `caddyfileTemplate` (src/doco.go:104-118). -/
def mkRoutingConfig (caddyAddr apiAddr rootPath : String) : RoutingConfig :=
  { caddyAddr := caddyAddr
    tlsOff := true
    proxyPath := "/api/"
    proxyUpstream := "localhost" ++ apiAddr
    proxyTransparent := true
    proxyWebsocket := true
    proxyTimeout := "10m"
    rootPath := rootPath
    rewriteNotMatch := "^/api"
    rewriteTo := ["\x7bpath\x7d", "/"] }

/-- Where a request is dispatched by the proxy: forwarded upstream with the
proxy block's attributes, or served as a static file from the root with a
possibly rewritten path. -/
inductive RouteDecision where
  | proxy (upstream : String) (transparent websocket : Bool) (timeout : String)
  | static (root : String) (servedPath : String)
deriving DecidableEq, Repr

/-- A path begins with the given piece (character-wise prefix): the match
performed by a caddy base-path directive and by the anchored regex
`^/api`. -/
def beginsWith (pre path : String) : Bool :=
  pre.data.isPrefixOf path.data

/-- Modelled from the spec: the caddy v1 server applying the generated
configuration (the caddy library is an external dependency, its code not
under src/).  Per the spec, requests whose path begins with the API prefix
are forwarded to the configured upstream with the proxy block's
attributes; all other requests are served from the static root, and when
such a path does not match `^/api` the rewrite rule serves the path itself
if a static asset exists there and otherwise rewrites to `/` (SPA
fallback).  `fileExists` abstracts the static-asset check. -/
def route (cfg : RoutingConfig) (path : String) (fileExists : String → Bool) :
    RouteDecision :=
  if beginsWith cfg.proxyPath path then
    .proxy cfg.proxyUpstream cfg.proxyTransparent cfg.proxyWebsocket cfg.proxyTimeout
  else if !(beginsWith "/api" path) then
    .static cfg.rootPath (if fileExists path then path else "/")
  else
    .static cfg.rootPath path

/-- `RunServer` (src/doco.go:121-154) blocks in
`http.ListenAndServe(serverAddr, sessionManager.LoadAndSave(r))` and
returns exactly when that call returns, i.e. when the listener stops with
an error.  The `ctx` argument is received but never consulted anywhere in
the function body, so whether the run function has returned is a function
of the listener state alone. -/
def runServerReturned (_ctxCancelled : Bool) (listenerStopped : Bool) : Bool :=
  listenerStopped

/-- `RunLoadBalancer` (src/doco.go:161-190) renders the Caddyfile, calls
`caddy.Start` and blocks in `instance.Wait()`, returning when the caddy
instance stops.  The `ctx` argument is received but never consulted
anywhere in the function body, so whether the run function has returned is
a function of the caddy instance state alone. -/
def runLoadBalancerReturned (_ctxCancelled : Bool) (instanceStopped : Bool) : Bool :=
  instanceStopped

/-- Events in one execution of the actor group. -/
inductive RunEvent where
  | ret (i : Nat)
  | intr (i : Nat)
  | groupReturn
deriving DecidableEq, Repr

/-- Modelled from the spec: the Lifecycle Orchestrator run by `main`
(src/unnamed/part_000:66-80) is `oklog/run`'s `Group.Run`, a library whose
code is not under src/.  Per the spec: all `n` registered actors' run
functions are started concurrently; when the first run function returns,
the interrupt function of every other registered actor is invoked exactly
once (no self-interrupt of the first); the orchestrator then waits for the
remaining run functions to return before the group-level call returns.
`order` lists the actor indices in the order their run functions return;
the result is the event trace of the group execution. -/
def groupTrace (n : Nat) (order : List Nat) : List RunEvent :=
  match order with
  | [] => [.groupReturn]
  | f :: rest =>
      .ret f ::
        (((List.range n).filter (fun i => i ≠ f)).map .intr ++
          rest.map .ret ++ [.groupReturn])

/-- C2: with the shared cancellation context cancelled but the listener
(resp. the caddy instance) still healthy, neither `RunServer` nor
`RunLoadBalancer` has returned, and in fact the return condition of each
run function is independent of the cancellation input: the claim that
cancelling the context stops the accept loops and unblocks the run
functions fails on the code, which never consults `ctx`. -/
theorem run_functions_ignore_cancellation :
    runServerReturned true false = false ∧
    runLoadBalancerReturned true false = false ∧
    (∀ c c' l, runServerReturned c l = runServerReturned c' l) ∧
    (∀ c c' s, runLoadBalancerReturned c s = runLoadBalancerReturned c' s) :=
  ⟨rfl, rfl, fun _ _ _ => rfl, fun _ _ _ => rfl⟩

/-- C3: the routing-configuration generator is a deterministic pure
function of the listen address, upstream address and static root path:
rendering twice with identical inputs yields byte-identical text. -/
theorem caddyfileRender_deterministic (a₁ u₁ r₁ a₂ u₂ r₂ : String)
    (ha : a₁ = a₂) (hu : u₁ = u₂) (hr : r₁ = r₂) :
    caddyfileRender a₁ u₁ r₁ = caddyfileRender a₂ u₂ r₂ := by
  rw [ha, hu, hr]

/-- Witness for C3 at concrete inputs, evaluating the render. -/
theorem caddyfileRender_deterministic_witness :
    (":8080" : String) = ":8080" ∧ (":8081" : String) = ":8081" ∧
    ("./web/dist" : String) = "./web/dist" ∧
    caddyfileRender ":8080" ":8081" "./web/dist" =
      caddyfileRender ":8080" ":8081" "./web/dist" :=
  ⟨rfl, rfl, rfl,
    caddyfileRender_deterministic ":8080" ":8081" "./web/dist"
      ":8080" ":8081" "./web/dist" rfl rfl rfl⟩

/-- C5: on a found blob, the handler sets a `Content-Type` header equal to
the blob's mime type exactly when that mime type is non-empty and not the
sentinel `"unknown"`; for the sentinel `"unknown"` no `Content-Type`
header is set at all. -/
theorem blobHandler_content_type (b : Blob) :
    ((("Content-Type", b.mimeType) ∈ (blobHandler (.found b)).headers) ↔
      (b.mimeType ≠ "" ∧ b.mimeType ≠ "unknown")) ∧
    (b.mimeType = "unknown" →
      ∀ v, ("Content-Type", v) ∉ (blobHandler (.found b)).headers) := by
  constructor
  · by_cases h : b.mimeType ≠ "" ∧ b.mimeType ≠ "unknown" <;>
      simp [blobHandler, h]
  · intro hu v
    have h : ¬(b.mimeType ≠ "" ∧ b.mimeType ≠ "unknown") := by
      simp [hu]
    simp [blobHandler, h]

/-- Witness for C5: a blob whose mime type is the sentinel `"unknown"`
receives no `Content-Type` header. -/
theorem blobHandler_content_type_witness :
    ("unknown" : String) = "unknown" ∧
    ("Content-Type", "image/png") ∉
      (blobHandler (.found ⟨"a.bin", "unknown", [1, 2]⟩)).headers :=
  ⟨rfl, (blobHandler_content_type ⟨"a.bin", "unknown", [1, 2]⟩).2 rfl "image/png"⟩

/-- C6: on a found blob the handler always sets a `Content-Disposition`
header of exactly the form `attachment;filename=<name>` for the blob's
stored filename, and the body served is the stored bytes. -/
theorem blobHandler_disposition_and_body (b : Blob) :
    ("Content-Disposition", "attachment;filename=" ++ b.fileName) ∈
      (blobHandler (.found b)).headers ∧
    (blobHandler (.found b)).body = .content b.file := by
  constructor
  · by_cases h : b.mimeType ≠ "" ∧ b.mimeType ≠ "unknown" <;>
      simp [blobHandler, h]
  · by_cases h : b.mimeType ≠ "" ∧ b.mimeType ≠ "unknown" <;>
      simp [blobHandler, h]

/-- C7: when the Content Store lookup fails, the handler responds with
status 400 and a body that is the JSON error envelope with exactly the two
string fields `err` and `message`, and writes no blob content. -/
theorem blobHandler_lookup_failure (e : GoError) :
    (blobHandler (.failed e)).status = 400 ∧
    (∃ s t : String, (blobHandler (.failed e)).body =
      .errorEnvelope (.obj [("err", .str s), ("message", .str t)])) ∧
    (∀ bs, (blobHandler (.failed e)).body ≠ .content bs) := by
  refine ⟨rfl, ⟨e.msg, e.msg, rfl⟩, ?_⟩
  intro bs h
  simp [blobHandler] at h

/-- Witness for C7 at a concrete lookup error, instantiating the negative
conjunct at a concrete candidate content body. -/
theorem blobHandler_lookup_failure_witness :
    (blobHandler (.failed ⟨"sql: no rows in result set"⟩)).status = 400 ∧
    (blobHandler (.failed ⟨"sql: no rows in result set"⟩)).body ≠
      Body.content [1, 2, 3] :=
  ⟨(blobHandler_lookup_failure ⟨"sql: no rows in result set"⟩).1,
    (blobHandler_lookup_failure ⟨"sql: no rows in result set"⟩).2.2 [1, 2, 3]⟩

/-- C8: the envelope built by `Err` lets the wrapped error be recovered
through `Unwrap`, while its wire payload is exactly the JSON object with
the two string fields `err` and `message`. -/
theorem Err_unwrap_and_wire (e : GoError) (msgs : List String) :
    (Err e msgs).Unwrap = e ∧
    (∃ s t : String, (Err e msgs).toJson =
      .obj [("err", .str s), ("message", .str t)]) := by
  constructor
  · cases msgs <;> rfl
  · exact ⟨(Err e msgs).err, (Err e msgs).message, rfl⟩

/-- C9: a handler returning a nil result with a nil error is converted by
`withError` into the `"no response"` error envelope (message
`"no response"`) rather than an empty success body, for every status
code. -/
theorem withError_nil_result (code : Nat) :
    withError none code none =
      { status := code, headers := [],
        body := .errorEnvelope
          (.obj [("err", .str "no response"), ("message", .str "no response")]) } :=
  rfl

/-- C10: the generated configuration's proxy target is the literal string
`localhost` concatenated with the upstream address input, both in the
structured configuration and in the rendered text; an upstream address
carrying its own hostname is therefore mangled, as at
`"example.com:8081"`. -/
theorem proxy_target_is_localhost_concat (la ua rp : String) :
    (mkRoutingConfig la ua rp).proxyUpstream = "localhost" ++ ua ∧
    caddyfileRender la ua rp = caddyPre la ++ ("localhost" ++ ua) ++ caddySuf rp ∧
    (mkRoutingConfig la "example.com:8081" rp).proxyUpstream =
      "localhostexample.com:8081" :=
  ⟨rfl, rfl, rfl⟩

/-- C4: for every pair of inputs, the generated configuration disables TLS
termination; every path beginning with the API prefix `/api/` is forwarded
to the configured upstream with transparent forwarding, WebSocket
passthrough and the 10-minute idle timeout; and every path not matching
`^/api` is served from the static root, rewritten to `/` unless a static
asset exists at that path. -/
theorem route_generated_config (la ua rp path : String) (fE : String → Bool) :
    (mkRoutingConfig la ua rp).tlsOff = true ∧
    (beginsWith "/api/" path = true →
      route (mkRoutingConfig la ua rp) path fE =
        .proxy ("localhost" ++ ua) true true "10m") ∧
    (beginsWith "/api" path = false →
      route (mkRoutingConfig la ua rp) path fE =
        .static rp (if fE path then path else "/")) := by
  refine ⟨rfl, ?_, ?_⟩
  · intro h
    simp [route, mkRoutingConfig, h]
  · intro h
    have hslash : beginsWith "/api/" path = false := by
      by_contra hc
      rw [Bool.not_eq_false, beginsWith, List.isPrefixOf_iff_prefix] at hc
      have h4 : beginsWith "/api" path = true := by
        rw [beginsWith, List.isPrefixOf_iff_prefix]
        exact List.IsPrefix.trans ⟨['/'], rfl⟩ hc
      rw [h] at h4
      exact Bool.false_ne_true h4
    simp [route, mkRoutingConfig, hslash, h]

/-- Witness for C4: the concrete paths `/api/metrics` (forwarded upstream)
and `/app/page` with no matching static file (served from the static root
after rewrite to `/`). -/
theorem route_generated_config_witness :
    beginsWith "/api/" "/api/metrics" = true ∧
    beginsWith "/api" "/app/page" = false ∧
    route (mkRoutingConfig ":8080" ":8081" "./web/dist") "/api/metrics"
        (fun _ => false) = .proxy "localhost:8081" true true "10m" ∧
    route (mkRoutingConfig ":8080" ":8081" "./web/dist") "/app/page"
        (fun _ => false) = .static "./web/dist" "/" := by
  refine ⟨by decide, by decide, ?_, ?_⟩
  · exact (route_generated_config ":8080" ":8081" "./web/dist" "/api/metrics"
      (fun _ => false)).2.1 (by decide)
  · exact (route_generated_config ":8080" ":8081" "./web/dist" "/app/page"
      (fun _ => false)).2.2 (by decide)

/-- The event constructor for interrupts is injective. -/
theorem RunEvent.intr_injective : Function.Injective RunEvent.intr := by
  intro a b h
  injection h

/-- C1: in every execution of a group of `n ≥ 2` actors whose run
functions return in the order `f :: rest` (a permutation of the actor
indices), the trace ends with the single group-level return event, every
actor's run return precedes it, the first-returning actor `f` is never
interrupted, and every other registered actor's interrupt function is
invoked exactly once. -/
theorem groupTrace_interrupts (n f : Nat) (rest : List Nat)
    (_hn : 2 ≤ n) (hp : (f :: rest).Perm (List.range n)) :
    ∃ pre, groupTrace n (f :: rest) = pre ++ [RunEvent.groupReturn] ∧
      RunEvent.groupReturn ∉ pre ∧
      (∀ i, i < n → RunEvent.ret i ∈ pre) ∧
      pre.count (RunEvent.intr f) = 0 ∧
      (∀ i, i < n → i ≠ f → pre.count (RunEvent.intr i) = 1) := by
  refine ⟨.ret f ::
    (((List.range n).filter (fun i => i ≠ f)).map .intr ++ rest.map .ret),
    ?_, ?_, ?_, ?_, ?_⟩
  · simp [groupTrace]
  · simp
  · intro i hi
    rcases eq_or_ne i f with rfl | hif
    · exact List.mem_cons_self _ _
    · have hmem : i ∈ f :: rest := hp.mem_iff.mpr (List.mem_range.mpr hi)
      have hrest : i ∈ rest := by
        rcases List.mem_cons.mp hmem with h | h
        · exact absurd h hif
        · exact h
      exact List.mem_cons_of_mem _
        (List.mem_append.mpr (Or.inr (List.mem_map_of_mem _ hrest)))
  · rw [List.count_eq_zero]
    simp
  · intro i hi hif
    rw [List.count_cons, List.count_append]
    have hmapret : (rest.map RunEvent.ret).count (RunEvent.intr i) = 0 := by
      rw [List.count_eq_zero]
      simp
    have hmapintr :
        (((List.range n).filter (fun j => j ≠ f)).map RunEvent.intr).count
          (RunEvent.intr i) =
        ((List.range n).filter (fun j => j ≠ f)).count i :=
      List.count_map_of_injective _ _ RunEvent.intr_injective i
    have hfilter : ((List.range n).filter (fun j => j ≠ f)).count i =
        (List.range n).count i := by
      refine List.count_filter ?_
      simp [hif]
    have hrange : (List.range n).count i = 1 :=
      List.count_eq_one_of_mem (List.nodup_range n) (List.mem_range.mpr hi)
    rw [hmapintr, hfilter, hrange, hmapret]
    simp

/-- Witness for C1 at the concrete two-actor group of `main`, with actor 0
returning first. -/
theorem groupTrace_interrupts_witness :
    2 ≤ 2 ∧ ([0, 1] : List Nat).Perm (List.range 2) ∧
    (∃ pre, groupTrace 2 [0, 1] = pre ++ [RunEvent.groupReturn] ∧
      RunEvent.groupReturn ∉ pre ∧
      (∀ i, i < 2 → RunEvent.ret i ∈ pre) ∧
      pre.count (RunEvent.intr 0) = 0 ∧
      (∀ i, i < 2 → i ≠ 0 → pre.count (RunEvent.intr i) = 1)) :=
  ⟨by decide, by decide, groupTrace_interrupts 2 0 [1] (by decide) (by decide)⟩

end Doco
